import Mathlib

/-!
Shallow embedding of the MAX7219 LED display driver (src/max7219.py) and
proofs about its register-write and bus behaviour.

The driver keeps two mutable byte arrays: `spidata` (length 16, the transmit
scratch buffer) and `status` (length 64, the mirror of the display state).
Every public operation updates `status` and issues register writes through
the private `_write` primitive, which serialises a two-byte frame and drives
the bus with lock/select/write/unselect/unlock.

Byte arrays are modelled as `List Nat`; Python integers as `Int` where the
source can see negative values (row/column/digit/value arguments), `Nat`
where it cannot.  Python's `~` and `&` on arbitrary integers are modelled by
explicit two's-complement functions `pyNot` and `pyAnd`; Python sequence
indexing (with its negative-index rule and its `IndexError`) by `pyIndex`
returning an `Option`.
-/

namespace Max7219

/-- Python bitwise complement `~n` on unbounded integers: `~n = -(n+1)`,
i.e. the bitwise not in two's complement. -/
def pyNot : Int → Int
  | .ofNat n => .negSucc n
  | .negSucc n => .ofNat n

/-- Python bitwise `a & b` on unbounded integers (two's complement):
a negative number `-(n+1)` has the bit pattern of `NOT n`. -/
def pyAnd : Int → Int → Int
  | .ofNat a, .ofNat b => .ofNat (a &&& b)
  | .ofNat a, .negSucc b => .ofNat (a ^^^ (a &&& b))
  | .negSucc a, .ofNat b => .ofNat (b ^^^ (b &&& a))
  | .negSucc a, .negSucc b => .negSucc (a ||| b)

/-- Python sequence indexing `l[i]`: a negative index counts from the end
(`l[i]` is `l[len(l)+i]`); an index that is still out of range raises
`IndexError`, modelled as `none`. -/
def pyIndex (l : List Nat) (i : Int) : Option Nat :=
  let j : Int := if i < 0 then (l.length : Int) + i else i
  if j < 0 then none else l.get? j.toNat

-- Register Address Map (class constants of MAX7219)
def DIGIT0 : Nat := 1
def DIGIT1 : Nat := 2
def DIGIT2 : Nat := 3
def DIGIT3 : Nat := 4
def DIGIT4 : Nat := 5
def DIGIT5 : Nat := 6
def DIGIT6 : Nat := 7
def DIGIT7 : Nat := 8
def NO_OP : Nat := 0x00
def SHUTDOWN : Nat := 0x0C
def SHUTDOWN_MODE : Nat := 0
def SHUTDOWN_NORMAL : Nat := 1
def DECODE_MODE : Nat := 0x09
def INTENSITY : Nat := 0x0A
def SCAN_LIMIT : Nat := 0x0B
def DISPLAY_TEST : Nat := 0x0F

/-- Table of characters and digits on 7-segment displays
(the `char_table` bytes literal, 128 entries). -/
def char_table : List Nat := [
  0b01111110,0b00110000,0b01101101,0b01111001,0b00110011,0b01011011,0b01011111,0b01110000,
  0b01111111,0b01111011,0b01110111,0b00011111,0b00001101,0b00111101,0b01001111,0b01000111,
  0b00000000,0b00000000,0b00000000,0b00000000,0b00000000,0b00000000,0b00000000,0b00000000,
  0b00000000,0b00000000,0b00000000,0b00000000,0b00000000,0b00000000,0b00000000,0b00000000,
  0b00000000,0b00000000,0b00000000,0b00000000,0b00000000,0b00000000,0b00000000,0b00000000,
  0b00000000,0b00000000,0b00000000,0b00000000,0b10000000,0b00000001,0b10000000,0b00000000,
  0b01111110,0b00110000,0b01101101,0b01111001,0b00110011,0b01011011,0b01011111,0b01110000,
  0b01111111,0b01111011,0b00000000,0b00000000,0b00000000,0b00000000,0b00000000,0b00000000,
  0b00000000,0b01110111,0b00011111,0b00001101,0b00111101,0b01001111,0b01000111,0b00000000,
  0b00110111,0b00000000,0b00000000,0b00000000,0b00001110,0b00000000,0b00000000,0b00000000,
  0b01100111,0b00000000,0b00000000,0b00000000,0b00000000,0b00000000,0b00000000,0b00000000,
  0b00000000,0b00000000,0b00000000,0b00000000,0b00000000,0b00000000,0b00000000,0b00001000,
  0b00000000,0b01110111,0b00011111,0b00001101,0b00111101,0b01001111,0b01000111,0b00000000,
  0b00110111,0b00000000,0b00000000,0b00000000,0b00001110,0b00000000,0b00010101,0b00011101,
  0b01100111,0b00000000,0b00000000,0b00000000,0b00000000,0b00000000,0b00000000,0b00000000,
  0b00000000,0b00000000,0b00000000,0b00000000,0b00000000,0b00000000,0b00000000,0b00000000]

/-- `self.max_devices = 1` (fixed in `__init__`). -/
def max_devices : Nat := 1

/-- The mutable instance state of a `MAX7219` object: the transmit scratch
buffer `self.spidata` (a `bytearray(16)`) and the display mirror
`self.status` (a `bytearray(64)`). -/
structure DriverState where
  spidata : List Nat
  status : List Nat
deriving DecidableEq

/-- One bus operation, in the order the driver invokes them inside
`_write`.  `transmit frame ok` records the `self.write(buffer)` call: `ok`
is false when the transmit raises an exception (which `_write` catches and
prints, line 120-123 of the source). -/
inductive BusEvent where
  | lock
  | select
  | transmit (frame : List Nat) (ok : Bool)
  | unselect
  | unlock
deriving DecidableEq

/-- The scratch buffer after the body of `_write` has filled it (source
lines 103-110): positions `0 .. max_devices*2 - 1` are zeroed, then
`spidata[1] = opcode` and `spidata[0] = data`. -/
def writeSpidata (spidata : List Nat) (opcode data : Nat) : List Nat :=
  let maxbytes := max_devices * 2
  let z := (List.range maxbytes).foldl (fun b i => b.set i 0) spidata
  (z.set 1 opcode).set 0 data

/-- The transmit frame built by `for i in range(maxbytes, 0, -1):
buffer.append(self.spidata[i-1])` (source lines 112-113): the first
`maxbytes` scratch bytes in reverse order. -/
def writeBuffer (spidata : List Nat) : List Nat :=
  let maxbytes := max_devices * 2
  ((List.range maxbytes).map fun k => maxbytes - k).foldl
    (fun buf i => buf ++ [spidata.getD (i - 1) 0]) []

/-- `_write(opcode, data)` at the bus level: fill the scratch buffer, build
the reversed frame, then `lock`; `select`; `try: write(buffer) except:
print(e)` — a transmit failure (`ok = false`) is caught and swallowed, so
the function returns normally either way — `finally: unselect(); unlock()`.
Returns the new driver state and the bus-event trace. -/
def _writeBus (s : DriverState) (opcode data : Nat) (ok : Bool) :
    DriverState × List BusEvent :=
  let sd := writeSpidata s.spidata opcode data
  let buffer := writeBuffer sd
  ({ s with spidata := sd },
    [BusEvent.lock, BusEvent.select] ++ [BusEvent.transmit buffer ok]
      ++ [BusEvent.unselect, BusEvent.unlock])

/-- `_write(opcode, data)` at the register level: the state change (only
`spidata` is touched; `status` is updated by the callers before calling
`_write`) together with the register write `(opcode, data)` it performs.
The resulting state does not depend on transmit success, so the `true`
instance of `_writeBus` is used. -/
def _write (s : DriverState) (opcode data : Nat) :
    DriverState × List (Nat × Nat) :=
  ((_writeBus s opcode data true).1, [(opcode, data)])

/-- `shutdown(powerdown)` (source lines 137-149). -/
def shutdown (s : DriverState) (powerdown : Bool) :
    DriverState × List (Nat × Nat) :=
  if powerdown then _write s SHUTDOWN SHUTDOWN_MODE
  else _write s SHUTDOWN SHUTDOWN_NORMAL

/-- `set_scan_limit(limit)` (source lines 151-161): writes the SCAN_LIMIT
register when `0 <= limit < 8`, otherwise does nothing. -/
def set_scan_limit (s : DriverState) (limit : Int) :
    DriverState × List (Nat × Nat) :=
  if 0 ≤ limit ∧ limit < 8 then _write s SCAN_LIMIT limit.toNat else (s, [])

/-- `set_intensity(intensity)` (source lines 163-173): writes the INTENSITY
register when `0 <= intensity < 16`, otherwise does nothing. -/
def set_intensity (s : DriverState) (intensity : Int) :
    DriverState × List (Nat × Nat) :=
  if 0 ≤ intensity ∧ intensity < 16 then _write s INTENSITY intensity.toNat
  else (s, [])

/-- `clear_display()` (source lines 175-184): for `i in range(8)` set
`status[i] = 0` and write `status[i]` to digit register `i+1`,
accumulating the register writes. -/
def clear_display (s : DriverState) : DriverState × List (Nat × Nat) :=
  (List.range 8).foldl
    (fun p i =>
      let st := p.1.status.set i 0
      let s1 : DriverState := { p.1 with status := st }
      let r := _write s1 (i + 1) (st.getD i 0)
      (r.1, p.2 ++ r.2))
    (s, [])

/-- `set_led(row, column, state)` (source lines 187-209): out-of-range row
or column returns without doing anything; otherwise `val = 0x80 >> column`
is ORed into `status[row]` when `state`, else `val = ~val` and
`status[row] &= val` (Python `~`/`&` on ints), and the updated
`status[row]` is written to digit register `row+1`. -/
def set_led (s : DriverState) (row column : Int) (state : Bool) :
    DriverState × List (Nat × Nat) :=
  if row < 0 ∨ row > 7 ∨ column < 0 ∨ column > 7 then (s, [])
  else
    let r := row.toNat
    let val : Nat := 0x80 >>> column.toNat
    let cur := s.status.getD r 0
    let b : Nat :=
      if state then cur ||| val
      else (pyAnd (Int.ofNat cur) (pyNot (Int.ofNat val))).toNat
    let s1 : DriverState := { s with status := s.status.set r b }
    let r2 := _write s1 (r + 1) (s1.status.getD r 0)
    (r2.1, r2.2)

/-- `set_row(row, state)` (source lines 212-230): out-of-range row is a
no-op; otherwise `new_led_state` is the int 1 or 0 and `set_led(row, i,
new_led_state)` is called for `i in range(8)` (the int is truthy iff
nonzero). -/
def set_row (s : DriverState) (row : Int) (state : Bool) :
    DriverState × List (Nat × Nat) :=
  if row < 0 ∨ row > 7 then (s, [])
  else
    let new_led_state : Nat := if state then 1 else 0
    (List.range 8).foldl
      (fun p i =>
        let r := set_led p.1 row (Int.ofNat i) (new_led_state != 0)
        (r.1, p.2 ++ r.2))
      (s, [])

/-- `set_column(col, state)` (source lines 233-251): the transpose of
`set_row`. -/
def set_column (s : DriverState) (col : Int) (state : Bool) :
    DriverState × List (Nat × Nat) :=
  if col < 0 ∨ col > 7 then (s, [])
  else
    let new_led_state : Nat := if state then 1 else 0
    (List.range 8).foldl
      (fun p i =>
        let r := set_led p.1 (Int.ofNat i) col (new_led_state != 0)
        (r.1, p.2 ++ r.2))
      (s, [])

/-- `set_digit(digit, value, dp)` (source lines 253-271): the guard rejects
`digit < 0`, `digit > 7` and `value > 15` (returning with no write);
otherwise `v = char_table[value]` — Python indexing, so a negative `value`
indexes from the end and a `value < -128` raises `IndexError` (`none`) —
then `v |= 0x80` when `dp`, `status[digit] = v`, and `v` is written to
digit register `digit+1`. -/
def set_digit (s : DriverState) (digit value : Int) (dp : Bool) :
    Option (DriverState × List (Nat × Nat)) :=
  if digit < 0 ∨ digit > 7 ∨ value > 15 then some (s, [])
  else
    match pyIndex char_table value with
    | none => none
    | some v0 =>
      let v := if dp then v0 ||| 0x80 else v0
      let d := digit.toNat
      let s1 : DriverState := { s with status := s.status.set d v }
      let r := _write s1 (d + 1) v
      some (r.1, r.2)

/-- `set_char(digit, value, state)` (source lines 273-295): out-of-range
digit is a no-op; `index = value`, clamped to 32 (space) only when
`value > 127`; `v = char_table[index]` (Python indexing, so a negative
`value` still reaches the table); `v |= 0x80` when `state`;
`status[digit] = v`; write `v` to digit register `digit+1`. -/
def set_char (s : DriverState) (digit value : Int) (state : Bool) :
    Option (DriverState × List (Nat × Nat)) :=
  if digit < 0 ∨ digit > 7 then some (s, [])
  else
    let index := if value > 127 then (32 : Int) else value
    match pyIndex char_table index with
    | none => none
    | some v0 =>
      let v := if state then v0 ||| 0x80 else v0
      let d := digit.toNat
      let s1 : DriverState := { s with status := s.status.set d v }
      let r := _write s1 (d + 1) v
      some (r.1, r.2)

/-- `__init__(spidrv, cs, clk)` (source lines 76-97): allocate
`spidata = bytearray(16)` and `status = bytearray(64)`; run
`for i in self.status: self.status[i] = 0x00` (which iterates the byte
values, all zero, so it repeatedly clears `status[0]`); then, once per
device (`max_devices = 1`): write DISPLAY_TEST 0, `set_scan_limit(0x07)`,
write DECODE_MODE 0, `clear_display()`, `shutdown(True)`.  Returns the
constructed state and the register writes performed. -/
def mkMAX7219 : DriverState × List (Nat × Nat) :=
  let s0 : DriverState :=
    { spidata := List.replicate 16 0, status := List.replicate 64 0 }
  let st1 := (List.range s0.status.length).foldl
    (fun st k => st.set (st.getD k 0) 0) s0.status
  let s1 : DriverState := { s0 with status := st1 }
  let r1 := _write s1 DISPLAY_TEST 0
  let r2 := set_scan_limit r1.1 0x07
  let r3 := _write r2.1 DECODE_MODE 0
  let r4 := clear_display r3.1
  let r5 := shutdown r4.1 true
  (r5.1, r1.2 ++ r2.2 ++ r3.2 ++ r4.2 ++ r5.2)

/-! ## Helper lemmas -/

theorem char_table_length : char_table.length = 128 := rfl

theorem getD_set_self (l : List Nat) (i v : Nat) (h : i < l.length) :
    (l.set i v).getD i 0 = v := by
  simp [List.getD_eq_getElem?_getD, List.getElem?_set_self, h]

theorem getD_set_of_ne (l : List Nat) (i j v : Nat) (h : i ≠ j) :
    (l.set i v).getD j 0 = l.getD j 0 := by
  simp [List.getD_eq_getElem?_getD, List.getElem?_set_ne h]

theorem pyAnd_ofNat_pyNot (a m : Nat) :
    (pyAnd (Int.ofNat a) (pyNot (Int.ofNat m))).toNat = a ^^^ (a &&& m) := rfl

/-- Setting a bit with OR and then clearing it with AND-NOT clears it from
the original value as well. -/
theorem lor_xor_land_self (b m : Nat) :
    (b ||| m) ^^^ ((b ||| m) &&& m) = b ^^^ (b &&& m) := by
  apply Nat.eq_of_testBit_eq
  intro i
  simp only [Nat.testBit_xor, Nat.testBit_land, Nat.testBit_lor]
  cases b.testBit i <;> cases m.testBit i <;> rfl

set_option maxRecDepth 8000

/-- ORing the eight single-bit masks `0x80 >> 0 .. 0x80 >> 7` into a byte,
in that order, yields `0xFF`. -/
theorem byte_or_all_bits : ∀ b, b < 256 →
    ((((((((b ||| 128) ||| 64) ||| 32) ||| 16) ||| 8) ||| 4) ||| 2) ||| 1) = 255 := by
  decide

/-- Clearing the eight single-bit masks from a byte, in that order, yields
`0x00`.  Each step is the `x ^^^ (x &&& m)` form produced by
`pyAnd x (pyNot m)`. -/
theorem byte_clear_all_bits : ∀ b, b < 256 →
    (let b1 := b ^^^ (b &&& 128)
     let b2 := b1 ^^^ (b1 &&& 64)
     let b3 := b2 ^^^ (b2 &&& 32)
     let b4 := b3 ^^^ (b3 &&& 16)
     let b5 := b4 ^^^ (b4 &&& 8)
     let b6 := b5 ^^^ (b5 &&& 4)
     let b7 := b6 ^^^ (b6 &&& 2)
     b7 ^^^ (b7 &&& 1)) = 0 := by
  decide

/-- Evaluating one in-range `set_led` call: the status is updated at
`row.toNat` with the OR-ed or AND-NOT-ed byte, and exactly one register
write is issued. -/
theorem set_led_result (s : DriverState) (row col : Int) (st : Bool)
    (h0 : 0 ≤ row) (h7 : row ≤ 7) (hc0 : 0 ≤ col) (hc7 : col ≤ 7)
    (hr : row.toNat < s.status.length) :
    (set_led s row col st).1.status =
      s.status.set row.toNat
        (if st then s.status.getD row.toNat 0 ||| (0x80 >>> col.toNat)
         else (pyAnd (Int.ofNat (s.status.getD row.toNat 0))
            (pyNot (Int.ofNat (0x80 >>> col.toNat)))).toNat) ∧
    (set_led s row col st).2.length = 1 := by
  have hg : ¬(row < 0 ∨ row > 7 ∨ col < 0 ∨ col > 7) := by omega
  exact ⟨by simp only [set_led, if_neg hg, _write, _writeBus],
         by simp only [set_led, if_neg hg, _write, _writeBus,
              List.length_cons, List.length_nil]⟩

/-- The column loop shared by `set_row`: folding in-range `set_led` calls
over a column list updates the byte at `row` by the corresponding fold of
OR / AND-NOT steps, and issues one register write per column. -/
theorem set_row_loop (row : Int) (st : Bool) (h0 : 0 ≤ row) (h7 : row ≤ 7) :
    ∀ (cs : List Nat) (s : DriverState) (w : List (Nat × Nat)),
      (∀ c ∈ cs, c ≤ 7) → row.toNat < s.status.length →
      ((cs.foldl (fun p i =>
          ((set_led p.1 row (Int.ofNat i) st).1,
            p.2 ++ (set_led p.1 row (Int.ofNat i) st).2)) (s, w)).1.status.getD
          row.toNat 0 =
        cs.foldl (fun b c =>
          if st then b ||| (0x80 >>> c)
          else (pyAnd (Int.ofNat b) (pyNot (Int.ofNat (0x80 >>> c)))).toNat)
          (s.status.getD row.toNat 0)) ∧
      (cs.foldl (fun p i =>
          ((set_led p.1 row (Int.ofNat i) st).1,
            p.2 ++ (set_led p.1 row (Int.ofNat i) st).2)) (s, w)).2.length =
        w.length + cs.length := by
  intro cs
  induction cs with
  | nil => intro s w _ _; exact ⟨rfl, rfl⟩
  | cons c cs ih =>
    intro s w hc hr
    have hcc : c ≤ 7 := hc c (List.mem_cons_self c cs)
    obtain ⟨h1, h2⟩ := set_led_result s row (Int.ofNat c) st h0 h7
      (Int.ofNat_nonneg c)
      (by rw [Int.ofNat_eq_natCast]; exact_mod_cast hcc) hr
    have hr' : row.toNat < ((set_led s row (Int.ofNat c) st).1).status.length := by
      rw [h1, List.length_set]; exact hr
    obtain ⟨ih1, ih2⟩ := ih ((set_led s row (Int.ofNat c) st).1)
      (w ++ (set_led s row (Int.ofNat c) st).2)
      (fun d hd => hc d (List.mem_cons_of_mem c hd)) hr'
    constructor
    · simp only [List.foldl_cons]
      rw [ih1]
      congr 1
      rw [h1, getD_set_self _ _ _ hr]
      rfl
    · simp only [List.foldl_cons]
      rw [ih2, List.length_append, h2, List.length_cons]
      omega

/-! ## Claims -/

/-- C1 (counterexample): the construction sequence does not perform 13
register writes; evaluating the constructor gives 12 (one each for
display-test, scan-limit, decode-mode and shutdown, plus the 8 writes of
`clear_display`). -/
theorem mkMAX7219_not_thirteen_writes : ¬ mkMAX7219.2.length = 13 := by decide

/-- C1 (amended): constructing the driver issues the five initialization
steps in order — display-test off `(0x0F, 0)`, scan-limit=7 `(0x0B, 7)`,
decode-mode off `(0x09, 0)`, clear-display (8 digit-register writes of 0),
shutdown=powerdown `(0x0C, 0)` — for a total of 12 register writes. -/
theorem mkMAX7219_write_sequence :
    mkMAX7219.2 =
      [(DISPLAY_TEST, 0), (SCAN_LIMIT, 7), (DECODE_MODE, 0),
       (1, 0), (2, 0), (3, 0), (4, 0), (5, 0), (6, 0), (7, 0), (8, 0),
       (SHUTDOWN, SHUTDOWN_MODE)] ∧
    mkMAX7219.2.length = 12 := by
  exact ⟨rfl, rfl⟩

/-- C4: every register write drives the bus in the order lock, select,
transmit, unselect, unlock; a failed transmit (`ok = false`) is caught
inside `_write`, so the call still returns normally with unselect and
unlock in its trace, and the resulting driver state — in particular the
`status` mirror — is exactly what it would be had the transmit
succeeded. -/
theorem max7219_write_bus_protocol (s : DriverState) (opcode data : Nat) (ok : Bool) :
    (_writeBus s opcode data ok).2 =
      [BusEvent.lock, BusEvent.select,
       BusEvent.transmit (writeBuffer (writeSpidata s.spidata opcode data)) ok,
       BusEvent.unselect, BusEvent.unlock] ∧
    (_writeBus s opcode data ok).1 = (_writeBus s opcode data true).1 ∧
    (_writeBus s opcode data ok).1.status = s.status := by
  exact ⟨rfl, rfl, rfl⟩

/-- C5: with the 16-byte scratch buffer, `_write` lays the buffer out as
`[data, opcode, ...]` and transmits its first two bytes reversed, i.e. the
2-byte frame `[opcode, data]` with the opcode first. -/
theorem write_frame_opcode_first (sd : List Nat) (opcode data : Nat)
    (hlen : sd.length = 16) :
    writeBuffer (writeSpidata sd opcode data) = [opcode, data] ∧
    (writeSpidata sd opcode data).take 2 = [data, opcode] ∧
    writeBuffer (writeSpidata sd opcode data) =
      ((writeSpidata sd opcode data).take 2).reverse := by
  rcases sd with _ | ⟨x0, _ | ⟨x1, rest⟩⟩
  · simp at hlen
  · simp at hlen
  · exact ⟨rfl, rfl, rfl⟩

theorem write_frame_opcode_first_witness :
    (List.replicate 16 (0 : Nat)).length = 16 ∧
    writeBuffer (writeSpidata (List.replicate 16 0) 0x0C 7) = [0x0C, 7] :=
  ⟨rfl, (write_frame_opcode_first (List.replicate 16 0) 0x0C 7 rfl).1⟩

/-- C6: the out-of-range calls `set_led(8, 0, true)`, `set_scan_limit(9)`
and `set_intensity(-1)` perform no register write and return the driver
state unchanged (so every byte of `status` is unchanged). -/
theorem out_of_range_calls_noop (s : DriverState) :
    set_led s 8 0 true = (s, []) ∧
    set_scan_limit s 9 = (s, []) ∧
    set_intensity s (-1) = (s, []) := by
  refine ⟨?_, ?_, ?_⟩ <;> rfl

/-- C7: `clear_display()` zeroes `status[0..7]` (leaving the rest of the
64-byte mirror unchanged) and performs exactly the 8 register writes
`(1,0) .. (8,0)`. -/
theorem clear_display_spec (sd : List Nat) (a0 a1 a2 a3 a4 a5 a6 a7 : Nat)
    (t : List Nat) :
    (clear_display ⟨sd, a0::a1::a2::a3::a4::a5::a6::a7::t⟩).1.status =
      0::0::0::0::0::0::0::0::t ∧
    (clear_display ⟨sd, a0::a1::a2::a3::a4::a5::a6::a7::t⟩).2 =
      [(1, 0), (2, 0), (3, 0), (4, 0), (5, 0), (6, 0), (7, 0), (8, 0)] := by
  exact ⟨rfl, rfl⟩

/-- C2 (counterexample): with `status[0] = 0x80`, calling
`set_led(0, 0, true)` and then `set_led(0, 0, false)` leaves
`status[0] = 0`, not its prior value `0x80`: the second call clears the
bit even though it was set before the first call. -/
theorem set_led_toggle_counterexample :
    ¬ ((set_led (set_led ⟨List.replicate 16 0, 128 :: List.replicate 63 0⟩
          0 0 true).1 0 0 false).1.status.getD 0 0 =
        (⟨List.replicate 16 0, 128 :: List.replicate 63 0⟩ :
          DriverState).status.getD 0 0) := by
  decide

/-- C2 (amended): for every row and column in 0..7 and every starting
status, `set_led(row, col, true)` followed by `set_led(row, col, false)`
leaves `status[row]` equal to its prior value with bit `0x80 >> col`
cleared; in particular it restores `status[row]` whenever that bit was
clear beforehand. -/
theorem set_led_toggle_clears_bit (s : DriverState) (row col : Int)
    (h0 : 0 ≤ row) (h7 : row ≤ 7) (hc0 : 0 ≤ col) (hc7 : col ≤ 7)
    (hlen : s.status.length = 64) :
    (set_led (set_led s row col true).1 row col false).1.status.getD row.toNat 0 =
      s.status.getD row.toNat 0 ^^^
        (s.status.getD row.toNat 0 &&& (0x80 >>> col.toNat)) ∧
    (s.status.getD row.toNat 0 &&& (0x80 >>> col.toNat) = 0 →
      (set_led (set_led s row col true).1 row col false).1.status.getD row.toNat 0 =
        s.status.getD row.toNat 0) := by
  have hg : ¬(row < 0 ∨ row > 7 ∨ col < 0 ∨ col > 7) := by omega
  have hr : row.toNat < s.status.length := by omega
  have key : (set_led (set_led s row col true).1 row col false).1.status.getD
      row.toNat 0 =
      s.status.getD row.toNat 0 ^^^
        (s.status.getD row.toNat 0 &&& (0x80 >>> col.toNat)) := by
    simp only [set_led, if_neg hg, _write, _writeBus, if_true,
      Bool.false_eq_true, if_false]
    rw [getD_set_self _ _ _ hr, getD_set_self, pyAnd_ofNat_pyNot,
      lor_xor_land_self]
    simpa using hr
  exact ⟨key, fun hbit => by rw [key, hbit, Nat.xor_zero]⟩

theorem set_led_toggle_clears_bit_witness :
    ((⟨List.replicate 16 0, List.replicate 64 6⟩ :
        DriverState).status.length = 64) ∧
    (set_led (set_led ⟨List.replicate 16 0, List.replicate 64 6⟩
        0 3 true).1 0 3 false).1.status.getD 0 0 = 6 ^^^ (6 &&& (0x80 >>> 3)) :=
  ⟨rfl, (set_led_toggle_clears_bit ⟨List.replicate 16 0, List.replicate 64 6⟩
    0 3 (by decide) (by decide) (by decide) (by decide) rfl).1⟩

/-- C3: the range guard of `set_digit` checks only `value > 15`, so a
negative `value` is not rejected: for `-128 ≤ value ≤ -1` the Python
negative indexing makes it store `char_table[128 + value]` (plus the
decimal-point bit when `dp`) into `status[digit]` and write it to digit
register `digit+1`; for `value < -128` the table lookup raises an
`IndexError`.  In neither case is the call a silent no-op. -/
theorem set_digit_negative_value (s : DriverState) (digit value : Int)
    (dp : Bool) (hd0 : 0 ≤ digit) (hd7 : digit ≤ 7) (hneg : value < 0) :
    (-128 ≤ value →
      (set_digit s digit value dp).map (fun r => (r.1.status, r.2)) =
        some (s.status.set digit.toNat
            (if dp then char_table.getD (value + 128).toNat 0 ||| 0x80
             else char_table.getD (value + 128).toNat 0),
          [(digit.toNat + 1,
            if dp then char_table.getD (value + 128).toNat 0 ||| 0x80
            else char_table.getD (value + 128).toNat 0)])) ∧
    (value < -128 → set_digit s digit value dp = none) := by
  have hg : ¬(digit < 0 ∨ digit > 7 ∨ value > 15) := by omega
  constructor
  · intro h128
    simp only [set_digit, if_neg hg]
    interval_cases value <;> rfl
  · intro hlow
    simp only [set_digit, if_neg hg]
    have hpi : pyIndex char_table value = none := by
      simp only [pyIndex, show ((char_table.length : Int)) = (128 : Int) from rfl]
      rw [if_pos hneg, if_pos (show (128 : Int) + value < 0 by omega)]
    rw [hpi]

theorem set_digit_negative_value_witness :
    (set_digit ⟨List.replicate 16 0, List.replicate 64 0⟩ 3 (-14) true).map
        (fun r => (r.1.status, r.2)) =
      some ((List.replicate 64 0).set 3 (0b00000000 ||| 0x80), [(4, 0b00000000 ||| 0x80)]) ∧
    set_digit ⟨List.replicate 16 0, List.replicate 64 0⟩ 3 (-200) true = none :=
  ⟨(set_digit_negative_value ⟨List.replicate 16 0, List.replicate 64 0⟩
      3 (-14) true (by decide) (by decide) (by decide)).1 (by decide),
   (set_digit_negative_value ⟨List.replicate 16 0, List.replicate 64 0⟩
      3 (-200) true (by decide) (by decide) (by decide)).2 (by decide)⟩

/-- C8: for every digit in 0..7 and every `value > 127`,
`set_char(digit, value, true)` behaves exactly like
`set_char(digit, 32, true)`: `status[digit]` becomes
`char_table[32] | 0x80` and that byte is written to digit register
`digit+1`. -/
theorem set_char_overflow (s : DriverState) (digit value : Int)
    (hd0 : 0 ≤ digit) (hd7 : digit ≤ 7) (hv : 127 < value)
    (hlen : s.status.length = 64) :
    set_char s digit value true = set_char s digit 32 true ∧
    (set_char s digit value true).map (fun r => r.1.status.getD digit.toNat 0) =
      some (char_table.getD 32 0 ||| 0x80) ∧
    (set_char s digit value true).map (fun r => r.2) =
      some [(digit.toNat + 1, char_table.getD 32 0 ||| 0x80)] := by
  have hg : ¬(digit < 0 ∨ digit > 7) := by omega
  have hd : digit.toNat < s.status.length := by omega
  have hstep : set_char s digit value true =
      some ({ spidata := writeSpidata s.spidata (digit.toNat + 1) 128,
              status := s.status.set digit.toNat 128 },
            [(digit.toNat + 1, 128)]) := by
    simp only [set_char, if_neg hg]
    rw [if_pos hv]
    rfl
  have hstep32 : set_char s digit 32 true =
      some ({ spidata := writeSpidata s.spidata (digit.toNat + 1) 128,
              status := s.status.set digit.toNat 128 },
            [(digit.toNat + 1, 128)]) := by
    simp only [set_char, if_neg hg]
    rfl
  refine ⟨hstep.trans hstep32.symm, ?_, ?_⟩
  · rw [hstep, Option.map_some']
    show some ((s.status.set digit.toNat 128).getD digit.toNat 0) =
      some (char_table.getD 32 0 ||| 0x80)
    rw [getD_set_self _ _ _ hd]
    rfl
  · rw [hstep, Option.map_some']
    rfl

theorem set_char_overflow_witness :
    ((⟨List.replicate 16 0, List.replicate 64 0⟩ :
        DriverState).status.length = 64) ∧
    set_char ⟨List.replicate 16 0, List.replicate 64 0⟩ 2 200 true =
      set_char ⟨List.replicate 16 0, List.replicate 64 0⟩ 2 32 true ∧
    (set_char ⟨List.replicate 16 0, List.replicate 64 0⟩ 2 200 true).map
        (fun r => r.1.status.getD 2 0) = some (char_table.getD 32 0 ||| 0x80) :=
  ⟨rfl,
   (set_char_overflow ⟨List.replicate 16 0, List.replicate 64 0⟩ 2 200
      (by decide) (by decide) (by decide) rfl).1,
   (set_char_overflow ⟨List.replicate 16 0, List.replicate 64 0⟩ 2 200
      (by decide) (by decide) (by decide) rfl).2.1⟩

/-- C9: for every row in 0..7 and every starting status (bytearray entries
are `< 256`), `set_row(row, true)` leaves `status[row] = 0xFF` and
`set_row(row, false)` leaves `status[row] = 0x00`, each issuing one
register write per column, 8 writes in total. -/
theorem set_row_spec (s : DriverState) (row : Int) (h0 : 0 ≤ row) (h7 : row ≤ 7)
    (hlen : s.status.length = 64) (hbytes : ∀ b ∈ s.status, b < 256) :
    (set_row s row true).1.status.getD row.toNat 0 = 0xFF ∧
    (set_row s row false).1.status.getD row.toNat 0 = 0x00 ∧
    (set_row s row true).2.length = 8 ∧
    (set_row s row false).2.length = 8 := by
  have hg : ¬(row < 0 ∨ row > 7) := by omega
  have hr : row.toNat < s.status.length := by omega
  have hb : s.status.getD row.toNat 0 < 256 := by
    rw [List.getD_eq_getElem?_getD, List.getElem?_eq_getElem hr]
    exact hbytes _ (List.getElem_mem hr)
  have hcs : ∀ c ∈ List.range 8, c ≤ 7 := by
    intro c hc
    have := List.mem_range.mp hc
    omega
  have hrwT : set_row s row true = (List.range 8).foldl (fun p i =>
      ((set_led p.1 row (Int.ofNat i) true).1,
        p.2 ++ (set_led p.1 row (Int.ofNat i) true).2)) (s, []) := by
    simp only [set_row, if_neg hg]
    rfl
  have hrwF : set_row s row false = (List.range 8).foldl (fun p i =>
      ((set_led p.1 row (Int.ofNat i) false).1,
        p.2 ++ (set_led p.1 row (Int.ofNat i) false).2)) (s, []) := by
    simp only [set_row, if_neg hg]
    rfl
  obtain ⟨hT1, hT2⟩ := set_row_loop row true h0 h7 (List.range 8) s [] hcs hr
  obtain ⟨hF1, hF2⟩ := set_row_loop row false h0 h7 (List.range 8) s [] hcs hr
  refine ⟨?_, ?_, ?_, ?_⟩
  · rw [hrwT, hT1]
    exact byte_or_all_bits _ hb
  · rw [hrwF, hF1]
    exact byte_clear_all_bits _ hb
  · rw [hrwT, hT2]
    rfl
  · rw [hrwF, hF2]
    rfl

theorem set_row_spec_witness :
    ((⟨List.replicate 16 0, List.replicate 64 37⟩ :
        DriverState).status.length = 64) ∧
    (set_row ⟨List.replicate 16 0, List.replicate 64 37⟩ 2 true).1.status.getD
      2 0 = 0xFF ∧
    (set_row ⟨List.replicate 16 0, List.replicate 64 37⟩ 2 false).1.status.getD
      2 0 = 0x00 :=
  have H := set_row_spec ⟨List.replicate 16 0, List.replicate 64 37⟩ 2
    (by decide) (by decide) rfl (by decide)
  ⟨rfl, H.1, H.2.1⟩

/-- C10: for valid inputs, each of `set_led`, `set_digit` and `set_char`
modifies only the single status byte at its row/digit index: every other
entry of `status` is left unchanged. -/
theorem single_row_frame_effect (s : DriverState) (d col value cvalue : Int)
    (st dp : Bool) (j : Nat)
    (hd0 : 0 ≤ d) (hd7 : d ≤ 7) (hc0 : 0 ≤ col) (hc7 : col ≤ 7)
    (hv0 : 0 ≤ value) (hv15 : value ≤ 15) (hcv0 : 0 ≤ cvalue)
    (hj : j ≠ d.toNat) :
    (set_led s d col st).1.status.getD j 0 = s.status.getD j 0 ∧
    (∀ r, set_digit s d value dp = some r →
      r.1.status.getD j 0 = s.status.getD j 0) ∧
    (∀ r, set_char s d cvalue st = some r →
      r.1.status.getD j 0 = s.status.getD j 0) := by
  have hgl : ¬(d < 0 ∨ d > 7 ∨ col < 0 ∨ col > 7) := by omega
  have hgd : ¬(d < 0 ∨ d > 7 ∨ value > 15) := by omega
  have hgc : ¬(d < 0 ∨ d > 7) := by omega
  have hne : d.toNat ≠ j := fun h => hj h.symm
  refine ⟨?_, ?_, ?_⟩
  · simp only [set_led, if_neg hgl, _write, _writeBus]
    exact getD_set_of_ne _ _ _ _ hne
  · intro r hr
    simp only [set_digit, if_neg hgd] at hr
    cases hpi : pyIndex char_table value with
    | none => rw [hpi] at hr; cases hr
    | some v0 =>
      rw [hpi] at hr
      obtain rfl := (Option.some.injEq _ _).mp hr
      simp only [_write, _writeBus]
      exact getD_set_of_ne _ _ _ _ hne
  · intro r hr
    simp only [set_char, if_neg hgc] at hr
    cases hpi : pyIndex char_table (if cvalue > 127 then (32 : Int) else cvalue) with
    | none => rw [hpi] at hr; cases hr
    | some v0 =>
      rw [hpi] at hr
      obtain rfl := (Option.some.injEq _ _).mp hr
      simp only [_write, _writeBus]
      exact getD_set_of_ne _ _ _ _ hne

theorem single_row_frame_effect_witness :
    (set_led ⟨List.replicate 16 0, List.replicate 64 9⟩ 3 2 true).1.status.getD
      0 0 =
      (⟨List.replicate 16 0, List.replicate 64 9⟩ :
        DriverState).status.getD 0 0 ∧
    (set_digit ⟨List.replicate 16 0, List.replicate 64 9⟩ 3 5 true).map
        (fun r => r.1.status.getD 0 0) = some 9 ∧
    (set_char ⟨List.replicate 16 0, List.replicate 64 9⟩ 3 200 true).map
        (fun r => r.1.status.getD 0 0) = some 9 := by
  have H := single_row_frame_effect ⟨List.replicate 16 0, List.replicate 64 9⟩
    3 2 5 200 true true 0 (by decide) (by decide) (by decide) (by decide)
    (by decide) (by decide) (by decide) (by decide)
  refine ⟨H.1, ?_, ?_⟩
  · rcases hr : set_digit ⟨List.replicate 16 0, List.replicate 64 9⟩ 3 5 true with _ | r
    · exact absurd hr (by decide)
    · rw [Option.map_some']
      rw [H.2.1 r hr]
      rfl
  · rcases hr : set_char ⟨List.replicate 16 0, List.replicate 64 9⟩ 3 200 true with _ | r
    · exact absurd hr (by decide)
    · rw [Option.map_some']
      rw [H.2.2 r hr]
      rfl

end Max7219
